import Mathlib

/-!
Shallow embedding of the `locallibrary/catalog` application (Django models
in `models.py` and admin registrations in `admin.py`).

Modelling conventions:
* Django model classes become Lean structures; framework-assigned numeric
  primary keys are explicit `pk : Nat` fields.
* Dates are modelled as day numbers (`Nat`); an optional date is `Option Nat`.
* The 128-bit UUID of `BookInstance.id` is modelled as a `Nat`.
* A foreign key `ForeignKey(..., null=True)` is an `Option Nat` holding the
  primary key of the target row, `none` when NULL.
* A many-to-many field is the list of related rows in stored order
  (the queryset `self.genre.all()`).
* Python f-strings become explicit `++` concatenations; Python renders
  `None` as the string "None".
* Fallible operations (attribute access on `None`) return `Option`.
-/

namespace Catalog

/-- A loan-status choice: (stored code, human-readable label), one entry of
`BookInstance.LOAN_STATUS`. -/
abbrev Choice := String × String

/-- Model `Genre` from `models.py`: a book genre with a `name` char field. -/
structure Genre where
  pk : Nat
  name : String
deriving DecidableEq, Repr

/-- Model `Language` from `models.py`: a natural language with a `name` char field. -/
structure Language where
  pk : Nat
  name : String
deriving DecidableEq, Repr

/-- Model `Author` from `models.py`: first/last name and optional
birth/death dates. -/
structure Author where
  pk : Nat
  first_name : String
  last_name : String
  date_of_birth : Option Nat
  date_of_death : Option Nat
deriving DecidableEq, Repr

/-- Model `Book` from `models.py`: title, an optional foreign key to
`Author` (`on_delete=SET_NULL, null=True`), summary, isbn, and a
many-to-many `genre` relation held as the list of related `Genre` rows. -/
structure Book where
  pk : Nat
  title : String
  author : Option Nat
  summary : String
  isbn : String
  genre : List Genre
deriving DecidableEq, Repr

/-- Model `BookInstance` from `models.py`: UUID primary key `id`, an
optional foreign key to `Book` (`on_delete=SET_NULL, null=True`),
imprint, optional due date and one-character status. -/
structure BookInstance where
  id : Nat
  book : Option Nat
  imprint : String
  due_back : Option Nat
  status : String
deriving DecidableEq, Repr

/-- Method `Author.__str__`: the f-string `f'{self.last_name}, {self.first_name}'`. -/
def Author.str (a : Author) : String :=
  a.last_name ++ ", " ++ a.first_name

/-- Method `Genre.__str__`: returns `self.name`. -/
def Genre.str (g : Genre) : String := g.name

/-- Method `Language.__str__`: returns `self.name`. -/
def Language.str (l : Language) : String := l.name

/-- Method `Book.__str__`: returns `self.title`. -/
def Book.str (b : Book) : String := b.title

/-- Method `Book.display_genre`: `', '.join(genre.name for genre in self.genre.all()[:3])`. -/
def Book.display_genre (b : Book) : String :=
  String.intercalate ", " ((b.genre.take 3).map Genre.name)

/-- Constant `BookInstance.LOAN_STATUS`: the declared (code, label) choices. -/
def BookInstance.LOAN_STATUS : List Choice :=
  [("m", "Maintenance"), ("o", "On loan"), ("a", "Available"), ("r", "Reserved")]

/-- The `default='m'` argument of the `status` char field. -/
def BookInstance.status_default : String := "m"

/-- The `blank=True` argument of the `status` char field. -/
def BookInstance.status_blank : Bool := true

/-- The `max_length=1` argument of the `status` char field. -/
def BookInstance.status_max_length : Nat := 1

/-- The `max_length=13` argument of the `isbn` char field of `Book`. -/
def Book.isbn_max_length : Nat := 13

/-- The human-readable label a stored code displays as: the second
component of the matching `LOAN_STATUS` entry (Django's
`get_status_display`). -/
def statusLabel (code : String) : Option String :=
  (BookInstance.LOAN_STATUS.find? (fun c => c.1 = code)).map (·.2)

/-- Creating a `BookInstance` without an explicit status: every field is
supplied except `status`, which takes the field's declared default. -/
def mkBookInstance (id : Nat) (book : Option Nat) (imprint : String)
    (due_back : Option Nat) : BookInstance :=
  { id := id, book := book, imprint := imprint, due_back := due_back,
    status := BookInstance.status_default }

/-- The persisted catalog: one table per model. -/
structure Db where
  authors : List Author
  genres : List Genre
  languages : List Language
  books : List Book
  instances : List BookInstance
deriving DecidableEq, Repr

/-- Look up the `Book` row a primary key refers to. -/
def Db.getBook (db : Db) (pk : Nat) : Option Book :=
  db.books.find? (fun b => b.pk = pk)

/-- Python rendering of an optional date inside an f-string: the string
`None` when absent, the day number otherwise. -/
def showOptDate : Option Nat → String
  | none => "None"
  | some d => toString d

/-- Method `BookInstance.__str__`: the f-string
`f'{self.id} ({self.book.title}) {self.status} {self.due_back}'`.
In Python `self.book` dereferences the foreign key; when it is NULL the
attribute access `self.book.title` raises, so the result is `none`. -/
def BookInstance.str (db : Db) (bi : BookInstance) : Option String :=
  match bi.book.bind db.getBook with
  | none => none
  | some b =>
      some (toString bi.id ++ " (" ++ b.title ++ ") " ++ bi.status ++ " " ++
            showOptDate bi.due_back)

/-- The `on_delete` policies Django offers for a foreign key. -/
inductive OnDelete where
  | CASCADE
  | SET_NULL
  | PROTECT
deriving DecidableEq, Repr

/-- The `on_delete=models.SET_NULL` argument of `Book.author`. -/
def Book.author_on_delete : OnDelete := OnDelete.SET_NULL

/-- The `null=True` argument of `Book.author`. -/
def Book.author_null : Bool := true

/-- The `on_delete=models.SET_NULL` argument of `BookInstance.book`. -/
def BookInstance.book_on_delete : OnDelete := OnDelete.SET_NULL

/-- The `null=True` argument of `BookInstance.book`. -/
def BookInstance.book_null : Bool := true

/-- What the framework does to the `books` table when the author row `apk`
is deleted, as a function of the declared `on_delete` policy of
`Book.author`: SET_NULL nullifies matching references, CASCADE would
delete the dependent rows, PROTECT would leave them untouched (the
deletion itself being refused). -/
def applyOnDeleteBooks (policy : OnDelete) (apk : Nat) (books : List Book) :
    List Book :=
  match policy with
  | OnDelete.SET_NULL =>
      books.map (fun b => if b.author = some apk then { b with author := none } else b)
  | OnDelete.CASCADE => books.filter (fun b => b.author ≠ some apk)
  | OnDelete.PROTECT => books

/-- What the framework does to the `instances` table when the book row
`bpk` is deleted, as a function of the declared `on_delete` policy of
`BookInstance.book`. -/
def applyOnDeleteInstances (policy : OnDelete) (bpk : Nat)
    (insts : List BookInstance) : List BookInstance :=
  match policy with
  | OnDelete.SET_NULL =>
      insts.map (fun bi => if bi.book = some bpk then { bi with book := none } else bi)
  | OnDelete.CASCADE => insts.filter (fun bi => bi.book ≠ some bpk)
  | OnDelete.PROTECT => insts

/-- Deleting the author row with primary key `apk`: the row leaves the
`authors` table and the `books` table is updated per the declared
`on_delete` policy of `Book.author`. -/
def Db.deleteAuthor (db : Db) (apk : Nat) : Db :=
  { db with
    authors := db.authors.filter (fun a => a.pk ≠ apk),
    books := applyOnDeleteBooks Book.author_on_delete apk db.books }

/-- Deleting the book row with primary key `bpk`: the row leaves the
`books` table and the `instances` table is updated per the declared
`on_delete` policy of `BookInstance.book`. -/
def Db.deleteBook (db : Db) (bpk : Nat) : Db :=
  { db with
    books := db.books.filter (fun b => b.pk ≠ bpk),
    instances := applyOnDeleteInstances BookInstance.book_on_delete bpk db.instances }

/-- No book's author reference dangles: every non-NULL `Book.author` names
an existing author row. -/
def Db.booksRefsOk (db : Db) : Bool :=
  db.books.all (fun b =>
    match b.author with
    | none => true
    | some apk => db.authors.any (fun a => a.pk = apk))

/-- No instance's book reference dangles: every non-NULL
`BookInstance.book` names an existing book row. -/
def Db.instancesRefsOk (db : Db) : Bool :=
  db.instances.all (fun bi =>
    match bi.book with
    | none => true
    | some bpk => db.books.any (fun b => b.pk = bpk))

/-- The `primary_key=True` argument of `BookInstance.id`: inserting a row
whose id is already present in the table violates the primary-key
constraint and is refused. -/
def insertInstance (bi : BookInstance) (tbl : List BookInstance) :
    Option (List BookInstance) :=
  if tbl.any (fun x => x.id = bi.id) then none else some (bi :: tbl)

/-- The states of the `BookInstance` table reachable from the empty table
by successful inserts. The id supplied at creation is the `uuid.uuid4()`
default: an arbitrary 128-bit value, not a counter, so inserts constrain
it only through the primary-key check. -/
inductive InstReachable : List BookInstance → Prop where
  | empty : InstReachable []
  | insert {tbl tbl' : List BookInstance} {bi : BookInstance} :
      InstReachable tbl → insertInstance bi tbl = some tbl' → InstReachable tbl'

/-- The models `models.py` declares. -/
inductive ModelName where
  | Author
  | Genre
  | Book
  | Language
  | BookInstance
deriving DecidableEq, Repr

/-- The models `admin.py` registers with the admin site: `Book` and
`BookInstance` through the `@admin.register` decorator, `Author` and
`Genre` through `admin.site.register` calls.  The commented-out
registrations register nothing. -/
def registeredModels : List ModelName :=
  [ModelName.Book, ModelName.BookInstance, ModelName.Author, ModelName.Genre]

/-- Validation of `Book.isbn` by its field declaration
`CharField('ISBN', max_length=13)`: the framework enforces the maximum
length and nothing else about the contents. -/
def isbnValid (s : String) : Bool :=
  s.length ≤ Book.isbn_max_length

/-- Validation of `BookInstance.status` by its field declaration: an empty
value passes because `blank=True`; a non-empty value must be one of the
declared choice codes (and meet `max_length=1`, which every code does). -/
def statusValid (s : String) : Bool :=
  (s = "" && BookInstance.status_blank) ||
    (BookInstance.LOAN_STATUS.any (fun c => c.1 = s) &&
      s.length ≤ BookInstance.status_max_length)

/-- Declaration `Author.Meta.ordering = ['last_name', 'first_name']`. -/
def Author.ordering : List String := ["last_name", "first_name"]

/-- Comparison of two authors on one named field, as the ORM's ORDER BY
does for each entry of `ordering`. -/
def Author.fieldCmp (field : String) (a b : Author) : Ordering :=
  if field = "last_name" then compare a.last_name b.last_name
  else if field = "first_name" then compare a.first_name b.first_name
  else Ordering.eq

/-- The ORM's composite ORDER BY: compare on the first field of the list,
break ties with the remaining fields. -/
def orderingCmp (fields : List String) (a b : Author) : Ordering :=
  match fields with
  | [] => Ordering.eq
  | f :: rest =>
      match Author.fieldCmp f a b with
      | Ordering.eq => orderingCmp rest a b
      | o => o

/-- The natural (default) order of `Author` rows: the composite comparison
over `Author.Meta.ordering`. -/
def Author.cmp (a b : Author) : Ordering :=
  orderingCmp Author.ordering a b

/-! Concrete rows used to evaluate the verified statements. -/

/-- A sample book with four genres. -/
def bookEx : Book :=
  { pk := 1, title := "Dune", author := some 7, summary := "Desert planet",
    isbn := "9780441013593",
    genre := [⟨1, "Sci-Fi"⟩, ⟨2, "Adventure"⟩, ⟨3, "Classic"⟩, ⟨4, "Epic"⟩] }

/-- A sample author referenced by `bookEx`. -/
def authorEx : Author :=
  { pk := 7, first_name := "Frank", last_name := "Herbert",
    date_of_birth := some 1, date_of_death := some 2 }

/-- A sample instance of `bookEx`. -/
def instanceEx : BookInstance :=
  { id := 11, book := some 1, imprint := "Ace", due_back := some 3, status := "o" }

/-- A sample instance whose book reference is NULL. -/
def orphanInstance : BookInstance :=
  { id := 42, book := none, imprint := "Ace", due_back := none, status := "a" }

/-- A sample catalog holding the rows above. -/
def dbEx : Db :=
  { authors := [authorEx], genres := bookEx.genre, languages := [⟨1, "English"⟩],
    books := [bookEx], instances := [instanceEx, orphanInstance] }

/-- C1: for every Author, `__str__` is the last name, then the literal
", ", then the first name; an Author named Jane Smith displays as
"Smith, Jane". -/
theorem author_str_spec :
    (∀ a : Author, a.str = a.last_name ++ ", " ++ a.first_name) ∧
    Author.str ⟨3, "Jane", "Smith", none, none⟩ = "Smith, Jane" := by
  refine ⟨fun a => rfl, by decide⟩

/-- Evaluation of `author_str_spec` on the sample author. -/
theorem author_str_spec_witness :
    Author.str authorEx = authorEx.last_name ++ ", " ++ authorEx.first_name :=
  author_str_spec.1 authorEx

/-- C2: `display_genre` joins the names of at most the first three genres
with ", "; with four or more genres exactly three names are joined, with
at most three genres all of them are. -/
theorem display_genre_spec (b : Book) :
    b.display_genre = String.intercalate ", " ((b.genre.map Genre.name).take 3) ∧
    ((b.genre.map Genre.name).take 3).length = min 3 b.genre.length ∧
    (4 ≤ b.genre.length → ((b.genre.map Genre.name).take 3).length = 3) ∧
    (b.genre.length ≤ 3 → (b.genre.map Genre.name).take 3 = b.genre.map Genre.name) := by
  refine ⟨?_, ?_, ?_, ?_⟩
  · simp [Book.display_genre, List.map_take]
  · simp [List.length_take]
  · intro h
    simp [List.length_take]
    omega
  · intro h
    exact List.take_of_length_le (by simpa using h)

/-- Evaluation of `display_genre_spec` on `bookEx`, a book with four
genres: exactly three genre names appear, and the displayed string is
their join. -/
theorem display_genre_spec_witness :
    ((bookEx.genre.map Genre.name).take 3).length = 3 ∧
    bookEx.display_genre = String.intercalate ", " ((bookEx.genre.map Genre.name).take 3) :=
  ⟨(display_genre_spec bookEx).2.2.1 (by decide), (display_genre_spec bookEx).1⟩

/-- C4: a `BookInstance` created without an explicit status gets the
default 'm', whose label in `LOAN_STATUS` is "Maintenance". -/
theorem default_status_spec (id : Nat) (book : Option Nat) (imprint : String)
    (due_back : Option Nat) :
    (mkBookInstance id book imprint due_back).status = "m" ∧
    statusLabel "m" = some "Maintenance" ∧
    ("m", "Maintenance") ∈ BookInstance.LOAN_STATUS := by
  refine ⟨rfl, by decide, by decide⟩

/-- Evaluation of `default_status_spec` at concrete creation arguments. -/
theorem default_status_spec_witness :
    (mkBookInstance 9 none "Penguin" none).status = "m" :=
  (default_status_spec 9 none "Penguin" none).1

/-- C6 counterexample: `Language` is not among the models `admin.py`
registers, refuting the claim that every one of the five models is
registered for the admin interface. -/
theorem language_not_registered : ModelName.Language ∉ registeredModels := by
  decide

/-- C6 amended: exactly four of the five models — Author, Genre, Book and
BookInstance — are registered for the admin interface; Language is not. -/
theorem registered_models_spec :
    ModelName.Author ∈ registeredModels ∧
    ModelName.Genre ∈ registeredModels ∧
    ModelName.Book ∈ registeredModels ∧
    ModelName.BookInstance ∈ registeredModels ∧
    ModelName.Language ∉ registeredModels := by
  decide

/-- C8: the isbn field accepts exactly the strings of length at most 13;
in particular a string that is not ISBN-formatted passes, since no
invariant beyond the length limit is enforced. -/
theorem isbn_field_spec :
    (∀ s : String, isbnValid s = true ↔ s.length ≤ 13) ∧
    Book.isbn_max_length = 13 ∧
    isbnValid "not-an-isbn" = true ∧
    isbnValid "12345678901234" = false := by
  refine ⟨?_, rfl, by decide, by decide⟩
  intro s
  simp [isbnValid, Book.isbn_max_length]

/-- Evaluation of `isbn_field_spec` at a concrete 13-character code. -/
theorem isbn_field_spec_witness :
    isbnValid "9780441013593" = true :=
  (isbn_field_spec.1 "9780441013593").mpr (by decide)

/-- Unfolding of the composite ORDER BY over `Author.Meta.ordering`:
compare last names, then first names. -/
theorem author_cmp_unfold (a b : Author) :
    Author.cmp a b =
      (match compare a.last_name b.last_name with
       | Ordering.eq => compare a.first_name b.first_name
       | o => o) := by
  have h1 : Author.fieldCmp "last_name" a b = compare a.last_name b.last_name :=
    if_pos rfl
  have h2 : Author.fieldCmp "first_name" a b = compare a.first_name b.first_name := by
    show (if ("first_name" : String) = "last_name" then compare a.last_name b.last_name
          else if ("first_name" : String) = "first_name" then
            compare a.first_name b.first_name
          else Ordering.eq) = _
    rw [if_neg (by decide), if_pos rfl]
  show (match Author.fieldCmp "last_name" a b with
        | Ordering.eq =>
            (match Author.fieldCmp "first_name" a b with
             | Ordering.eq => Ordering.eq
             | o => o)
        | o => o) = _
  rw [h1, h2]
  rcases compare a.last_name b.last_name with _ | _ | _ <;>
    rcases compare a.first_name b.first_name with _ | _ | _ <;> rfl

/-- C9: the natural order of Author rows compares last names first: when
the last names differ their comparison decides the order, and only for
equal last names does the first-name comparison decide. -/
theorem author_ordering_spec (a b : Author) :
    (a.last_name ≠ b.last_name →
      Author.cmp a b = compare a.last_name b.last_name) ∧
    (a.last_name = b.last_name →
      Author.cmp a b = compare a.first_name b.first_name) := by
  rw [author_cmp_unfold]
  constructor
  · intro hne
    have : compare a.last_name b.last_name ≠ Ordering.eq := by
      intro he
      exact hne (Batteries.BEqCmp.cmp_iff_eq.mp he)
    rcases h : compare a.last_name b.last_name with _ | _ | _
    · rfl
    · exact absurd h this
    · rfl
  · intro he
    have h : compare a.last_name b.last_name = Ordering.eq :=
      Batteries.BEqCmp.cmp_iff_eq.mpr he
    rw [h]

/-- Evaluation of `author_ordering_spec` on authors with distinct last
names and on authors sharing a last name. -/
theorem author_ordering_spec_witness :
    Author.cmp ⟨1, "Jane", "Smith", none, none⟩ ⟨2, "Ann", "Adams", none, none⟩ =
      compare "Smith" "Adams" ∧
    Author.cmp ⟨1, "Jane", "Smith", none, none⟩ ⟨2, "Ann", "Smith", none, none⟩ =
      compare "Jane" "Ann" :=
  ⟨(author_ordering_spec ⟨1, "Jane", "Smith", none, none⟩
      ⟨2, "Ann", "Adams", none, none⟩).1 (by decide),
   (author_ordering_spec ⟨1, "Jane", "Smith", none, none⟩
      ⟨2, "Ann", "Smith", none, none⟩).2 rfl⟩

/-- Membership characterization of `statusValid`: the accepted values are
the empty string and the four declared codes. -/
theorem statusValid_iff (s : String) :
    statusValid s = true ↔
      s = "" ∨ s = "m" ∨ s = "o" ∨ s = "a" ∨ s = "r" := by
  constructor
  · intro h
    simp [statusValid, BookInstance.LOAN_STATUS, BookInstance.status_blank,
          BookInstance.status_max_length] at h
    rcases h with h | ⟨(h | h | h | h), _⟩ <;> simp [h.symm]
  · rintro (rfl | rfl | rfl | rfl | rfl) <;> decide

/-- C10: the empty string is a valid stored status (`blank=True`), so a
stored status is not guaranteed to be a loan-status code; every valid
status is either empty or one of 'm', 'o', 'a', 'r'; and a non-empty
status is valid exactly when it is one of those four codes. -/
theorem status_blank_spec :
    statusValid "" = true ∧
    (∀ s : String, statusValid s = true →
      s = "" ∨ s = "m" ∨ s = "o" ∨ s = "a" ∨ s = "r") ∧
    (∀ s : String, s ≠ "" →
      (statusValid s = true ↔ s = "m" ∨ s = "o" ∨ s = "a" ∨ s = "r")) := by
  refine ⟨by decide, fun s hs => (statusValid_iff s).mp hs, fun s hns => ?_⟩
  rw [statusValid_iff]
  exact ⟨fun h => h.resolve_left hns, fun h => Or.inr h⟩

/-- Evaluation of `status_blank_spec` at the non-empty code "o": it is a
valid stored status. -/
theorem status_blank_spec_witness : statusValid "o" = true :=
  (status_blank_spec.2.2 "o" (by decide)).mpr (Or.inr (Or.inl rfl))

/-- C5 counterexample: `orphanInstance` is a catalog row whose book
reference is NULL, and on it `__str__` is undefined — `self.book.title`
dereferences `None` — refuting the claim that the display string is
defined for every BookInstance including those with a null book. -/
theorem bookinstance_str_undefined_on_null_book :
    orphanInstance ∈ dbEx.instances ∧
    orphanInstance.book = none ∧
    BookInstance.str dbEx orphanInstance = none := by
  refine ⟨by decide, rfl, rfl⟩

/-- C5 amended: for every BookInstance whose book reference is non-null
and names an existing book, the display string is defined and composes
the instance's id, the book's title, the status and the due date; when
the reference is null the display string is undefined. -/
theorem bookinstance_str_spec (db : Db) (bi : BookInstance) (bpk : Nat) (b : Book)
    (h1 : bi.book = some bpk) (h2 : db.getBook bpk = some b) :
    BookInstance.str db bi =
      some (toString bi.id ++ " (" ++ b.title ++ ") " ++ bi.status ++ " " ++
            showOptDate bi.due_back) := by
  simp [BookInstance.str, h1, h2]

/-- Evaluation of `bookinstance_str_spec` on `instanceEx`, whose book
reference names `bookEx`. -/
theorem bookinstance_str_spec_witness :
    BookInstance.str dbEx instanceEx =
      some (toString instanceEx.id ++ " (" ++ bookEx.title ++ ") " ++
            instanceEx.status ++ " " ++ showOptDate instanceEx.due_back) :=
  bookinstance_str_spec dbEx instanceEx 1 bookEx rfl rfl

/-- A sample instance created first, with the larger generated id. -/
def uuidFirst : BookInstance :=
  ⟨5, none, "first created", none, "m"⟩

/-- A sample instance created second, with the smaller generated id. -/
def uuidSecond : BookInstance :=
  ⟨3, none, "second created", none, "m"⟩

/-- C7: in every table reachable by inserts under the primary-key
constraint on `BookInstance.id`, ids are pairwise distinct across the
whole table; and ids are not sequential: the table whose second-created
row has a smaller id than the first-created one is reachable. -/
theorem instance_ids_unique :
    (∀ tbl, InstReachable tbl → tbl.Pairwise (fun x y => x.id ≠ y.id)) ∧
    (InstReachable [uuidSecond, uuidFirst] ∧ uuidSecond.id < uuidFirst.id) := by
  constructor
  · intro tbl h
    induction h with
    | empty => exact List.Pairwise.nil
    | insert hr hins ih =>
        rename_i tbl tbl' bi
        by_cases hany : tbl.any (fun x => x.id = bi.id) = true
        · simp [insertInstance, hany] at hins
        · simp only [insertInstance, hany, Bool.false_eq_true, if_false,
                     Option.some.injEq] at hins
          subst hins
          refine List.Pairwise.cons ?_ ih
          intro y hy he
          simp [List.any_eq_true] at hany
          exact hany y hy he.symm
  · exact ⟨@InstReachable.insert [uuidFirst] [uuidSecond, uuidFirst] uuidSecond
            (@InstReachable.insert [] [uuidFirst] uuidFirst InstReachable.empty
              (by decide))
            (by decide), by decide⟩

/-- Evaluation of `instance_ids_unique` on the concrete reachable
two-row table: its ids are pairwise distinct. -/
theorem instance_ids_unique_witness :
    ([uuidSecond, uuidFirst] : List BookInstance).Pairwise (fun x y => x.id ≠ y.id) :=
  instance_ids_unique.1 [uuidSecond, uuidFirst]
    (@InstReachable.insert [uuidFirst] [uuidSecond, uuidFirst] uuidSecond
      (@InstReachable.insert [] [uuidFirst] uuidFirst InstReachable.empty (by decide))
      (by decide))

/-- Unfolding of `deleteAuthor`: with the declared SET_NULL policy the
books table is mapped, nullifying references to the deleted author. -/
theorem deleteAuthor_books (db : Db) (apk : Nat) :
    (db.deleteAuthor apk).books =
      db.books.map (fun b => if b.author = some apk then { b with author := none } else b) :=
  rfl

/-- Unfolding of `deleteBook`: with the declared SET_NULL policy the
instances table is mapped, nullifying references to the deleted book. -/
theorem deleteBook_instances (db : Db) (bpk : Nat) :
    (db.deleteBook bpk).instances =
      db.instances.map
        (fun bi => if bi.book = some bpk then { bi with book := none } else bi) :=
  rfl

/-- Deleting an author keeps every book reference pointing at a still
existing author. -/
theorem deleteAuthor_refsOk (db : Db) (apk : Nat) (h : db.booksRefsOk = true) :
    (db.deleteAuthor apk).booksRefsOk = true := by
  rw [Db.booksRefsOk, List.all_eq_true] at h ⊢
  intro b' hb'
  rw [deleteAuthor_books, List.mem_map] at hb'
  obtain ⟨b, hb, rfl⟩ := hb'
  by_cases hba : b.author = some apk
  · simp [hba]
  · have hpred := h b hb
    simp only [if_neg hba]
    rcases hav : b.author with _ | apk'
    · simp
    · rw [hav] at hpred
      simp only [List.any_eq_true, decide_eq_true_eq] at hpred ⊢
      obtain ⟨a, ha, hapk⟩ := hpred
      refine ⟨a, ?_, hapk⟩
      show a ∈ (db.deleteAuthor apk).authors
      rw [Db.deleteAuthor]
      simp only [List.mem_filter, decide_eq_true_eq]
      refine ⟨ha, ?_⟩
      intro hcontra
      exact hba (by rw [hav, ← hapk, hcontra])

/-- Deleting a book keeps every instance reference pointing at a still
existing book. -/
theorem deleteBook_refsOk (db : Db) (bpk : Nat) (h : db.instancesRefsOk = true) :
    (db.deleteBook bpk).instancesRefsOk = true := by
  rw [Db.instancesRefsOk, List.all_eq_true] at h ⊢
  intro bi' hbi'
  rw [deleteBook_instances, List.mem_map] at hbi'
  obtain ⟨bi, hbi, rfl⟩ := hbi'
  by_cases hbb : bi.book = some bpk
  · simp [hbb]
  · have hpred := h bi hbi
    simp only [if_neg hbb]
    rcases hbv : bi.book with _ | bpk'
    · simp
    · rw [hbv] at hpred
      simp only [List.any_eq_true, decide_eq_true_eq] at hpred ⊢
      obtain ⟨b, hb, hbpk⟩ := hpred
      refine ⟨b, ?_, hbpk⟩
      show b ∈ (db.deleteBook bpk).books
      rw [Db.deleteBook]
      simp only [List.mem_filter, decide_eq_true_eq]
      refine ⟨hb, ?_⟩
      intro hcontra
      exact hbb (by rw [hbv, ← hbpk, hcontra])

/-- C3: deleting an Author nullifies the author reference of every Book
that referenced it and deletes no Book; deleting a Book nullifies the
book reference of every BookInstance that referenced it and deletes no
BookInstance; afterwards no reference to the deleted row remains and no
reference dangles. -/
theorem set_null_delete_spec (db : Db) (apk bpk : Nat) :
    ((db.deleteAuthor apk).books.length = db.books.length ∧
     (∀ b ∈ db.books, b.author = some apk →
        ({ b with author := none } : Book) ∈ (db.deleteAuthor apk).books) ∧
     (∀ b ∈ db.books, b.author ≠ some apk → b ∈ (db.deleteAuthor apk).books) ∧
     (∀ b ∈ (db.deleteAuthor apk).books, b.author ≠ some apk) ∧
     (db.booksRefsOk = true → (db.deleteAuthor apk).booksRefsOk = true)) ∧
    ((db.deleteBook bpk).instances.length = db.instances.length ∧
     (∀ bi ∈ db.instances, bi.book = some bpk →
        ({ bi with book := none } : BookInstance) ∈ (db.deleteBook bpk).instances) ∧
     (∀ bi ∈ db.instances, bi.book ≠ some bpk → bi ∈ (db.deleteBook bpk).instances) ∧
     (∀ bi ∈ (db.deleteBook bpk).instances, bi.book ≠ some bpk) ∧
     (db.instancesRefsOk = true → (db.deleteBook bpk).instancesRefsOk = true)) := by
  constructor
  · refine ⟨?_, ?_, ?_, ?_, deleteAuthor_refsOk db apk⟩
    · rw [deleteAuthor_books, List.length_map]
    · intro b hb hba
      rw [deleteAuthor_books, List.mem_map]
      exact ⟨b, hb, by simp [hba]⟩
    · intro b hb hba
      rw [deleteAuthor_books, List.mem_map]
      exact ⟨b, hb, by simp [hba]⟩
    · intro b' hb'
      rw [deleteAuthor_books, List.mem_map] at hb'
      obtain ⟨b, _, rfl⟩ := hb'
      by_cases hba : b.author = some apk
      · simp [hba]
      · simp [hba]
  · refine ⟨?_, ?_, ?_, ?_, deleteBook_refsOk db bpk⟩
    · rw [deleteBook_instances, List.length_map]
    · intro bi hbi hbb
      rw [deleteBook_instances, List.mem_map]
      exact ⟨bi, hbi, by simp [hbb]⟩
    · intro bi hbi hbb
      rw [deleteBook_instances, List.mem_map]
      exact ⟨bi, hbi, by simp [hbb]⟩
    · intro bi' hbi'
      rw [deleteBook_instances, List.mem_map] at hbi'
      obtain ⟨bi, _, rfl⟩ := hbi'
      by_cases hbb : bi.book = some bpk
      · simp [hbb]
      · simp [hbb]

/-- Evaluation of `set_null_delete_spec` on the sample catalog: deleting
author 7 leaves `bookEx` present with a null author and no dangling
reference; deleting book 1 leaves `instanceEx` present with a null book
and no dangling reference. -/
theorem set_null_delete_spec_witness :
    ({ bookEx with author := none } : Book) ∈ (dbEx.deleteAuthor 7).books ∧
    (dbEx.deleteAuthor 7).booksRefsOk = true ∧
    ({ instanceEx with book := none } : BookInstance) ∈ (dbEx.deleteBook 1).instances ∧
    (dbEx.deleteBook 1).instancesRefsOk = true :=
  ⟨(set_null_delete_spec dbEx 7 1).1.2.1 bookEx (by decide) (by decide),
   (set_null_delete_spec dbEx 7 1).1.2.2.2.2 (by decide),
   (set_null_delete_spec dbEx 7 1).2.2.1 instanceEx (by decide) (by decide),
   (set_null_delete_spec dbEx 7 1).2.2.2.2.2 (by decide)⟩

end Catalog
